import Mathlib

/-!
Verification of the slow 3-D convolution CPU kernel of
aten/src/ATen/native/ConvolutionMM3d.cpp.

Shallow embedding conventions:
- Tensor shapes are lists of int64 sizes (List Int); size i of a tensor is
  read with getD, defaulting to 0, and is only meaningful after the rank
  checks that the source performs first.
- An undefined (optional) tensor argument is None.
- Every TORCH_CHECK failure raises the single InvalidArgument error class;
  the Chk type records which check fired, mirroring the source order of the
  checks exactly.
- int64 arithmetic in the source stays within the range of the machine type
  here (shape arithmetic on small sizes), so Int models it directly; C++
  division / and % on int64 truncate toward zero and are modelled by
  Int.tdiv and Int.tmod.
- Element data of a concretely shaped tensor is modelled as a total function
  from indices to Int (exact arithmetic standing for the real-number
  semantics of the kernel); matrix multiply and addmm are Finset sums.
- The batched parallel loop (at::parallel_for) writes disjoint slices per
  batch index for the forward and grad-input passes, so it is modelled as a
  function of the batch index; buffer resize and write effects of the entry
  points are modelled as explicit event lists in program order.
-/

namespace Conv3d

/-- Which check of the source fired; all constructors stand for the single
InvalidArgument error class of the design. -/
inductive ConvErr where
  | kernelSize
  | strideSize
  | weightShape
  | biasShape
  | weightUndefined
  | inputShape
  | kernelTooLarge
  | outputTooSmall
  | inputChannels
  | gradOutChannels
  | emptyBias
  | gradOutDepth
  | gradOutHeight
  | gradOutWidth
  deriving DecidableEq

/-- Outcome of a chain of TORCH_CHECK validations. -/
inductive Chk where
  | ok : Chk
  | err : ConvErr → Chk
  deriving DecidableEq

/-- Sequencing of checks: the first failure wins, later checks run only if
all earlier ones passed. -/
def andThen (a b : Chk) : Chk :=
  match a with
  | .err e => .err e
  | .ok => b

/-- A single TORCH_CHECK(cond, msg): ok when the condition holds, otherwise
the given error. -/
def guardErr (c : Prop) [Decidable c] (e : ConvErr) : Chk :=
  if c then .ok else .err e

/-- Reads tensor.size(i) from a shape; meaningful only in range, like the
source accesses after its rank checks. -/
def sz (dims : List Int) (i : Nat) : Int :=
  dims.getD i 0

/-- Reads tensor.numel(): the product of all sizes. -/
def numel (dims : List Int) : Int :=
  dims.prod

/-- Embedding of div_rtn from ATen/div_rtn.h: C++ truncating division with a
correction step that turns it into rounding toward negative infinity. -/
def div_rtn (x y : Int) : Int :=
  if x.tmod y ≠ 0 ∧ ¬((x.tmod y < 0) ↔ (y < 0)) then x.tdiv y - 1 else x.tdiv y

/-- Embedding of at::check_dim_size(tensor, dim, dim_size, size): the tensor
has the expected rank and the expected size in the given dimension. -/
def check_dim_size (t : List Int) (dim : Nat) (dimSize : Nat) (size : Int)
    (e : ConvErr) : Chk :=
  guardErr (t.length = dim ∧ sz t dimSize = size) e

/-- Weight/bias stage of slow_conv3d_shape_check (ConvolutionMM3d.cpp lines
49-59): a defined weight is non-empty of rank 2 or 5 and a defined bias is a
length-out_channels vector; an undefined weight needs weight_optional. -/
def checkWeightBias (weight bias : Option (List Int)) (weightOptional : Bool) : Chk :=
  match weight with
  | some w =>
      andThen
        (guardErr (0 < numel w ∧ (w.length = 2 ∨ w.length = 5)) .weightShape)
        (match bias with
         | some b => check_dim_size b 1 0 (sz w 0) .biasShape
         | none => .ok)
  | none => guardErr (weightOptional = true) .weightUndefined

/-- Input stage of slow_conv3d_shape_check (lines 61-76): rank-5 and
non-empty, except that an empty batch dimension alone is allowed. -/
def checkInputShape (input : List Int) : Chk :=
  guardErr
    ((0 < numel input ∨
        (input.length = 5 ∧ sz input 0 = 0 ∧ sz input 1 ≠ 0 ∧ sz input 2 ≠ 0 ∧
          sz input 3 ≠ 0 ∧ sz input 4 ≠ 0)) ∧
      input.length = 5)
    .inputShape

/-- Output sizes as computed by slow_conv3d_shape_check (lines 105-110) with
div_rtn, in (depth, height, width) order. -/
def outputSizes (input : List Int) (kD kH kW sD sH sW pD pH pW : Int) :
    Int × Int × Int :=
  (div_rtn (sz input 2 + 2 * pD - kD) sD + 1,
   div_rtn (sz input 3 + 2 * pH - kH) sH + 1,
   div_rtn (sz input 4 + 2 * pW - kW) sW + 1)

/-- Input-channel stage of slow_conv3d_shape_check (lines 129-135): the
implied input-channel count of the weight; for a rank-2 weight the source
divides its second dimension by kernel_height * kernel_width. -/
def checkInputChannels (input : List Int) (weight : Option (List Int))
    (ndim : Nat) (kH kW : Int) : Chk :=
  match weight with
  | some w =>
      check_dim_size input ndim 1
        (if w.length = 2 then (sz w 1).tdiv (kH * kW) else sz w 1) .inputChannels
  | none => .ok

/-- Grad-output stage of slow_conv3d_shape_check (lines 137-149): channel
count against weight or bias, then the three spatial sizes. -/
def checkGradOutput (gradOutput weight bias : Option (List Int)) (ndim : Nat)
    (oD oH oW : Int) : Chk :=
  match gradOutput with
  | none => .ok
  | some go =>
      andThen
        (match weight with
         | some w => check_dim_size go ndim 1 (sz w 0) .gradOutChannels
         | none =>
             match bias with
             | some b =>
                 andThen (guardErr (0 < numel b) .emptyBias)
                   (check_dim_size go ndim 1
                     (if b.length = 0 then 1 else sz b 0) .gradOutChannels)
             | none => .ok)
        (andThen (check_dim_size go ndim 2 oD .gradOutDepth)
          (andThen (check_dim_size go ndim 3 oH .gradOutHeight)
            (check_dim_size go ndim 4 oW .gradOutWidth)))

/-- Embedding of slow_conv3d_shape_check (lines 16-150), with the checks in
source order: kernel positivity, stride positivity, weight/bias shape, input
shape, padded input at least kernel, output size at least one, input channel
agreement, grad-output agreement. -/
def slow_conv3d_shape_check (input : List Int)
    (gradOutput weight bias : Option (List Int))
    (kD kH kW sD sH sW pD pH pW : Int) (weightOptional : Bool) : Chk :=
  andThen (guardErr (0 < kW ∧ 0 < kH ∧ 0 < kD) .kernelSize)
    (andThen (guardErr (0 < sW ∧ 0 < sH ∧ 0 < sD) .strideSize)
      (andThen (checkWeightBias weight bias weightOptional)
        (andThen (checkInputShape input)
          (andThen
            (guardErr
              (kD ≤ sz input 2 + 2 * pD ∧ kH ≤ sz input 3 + 2 * pH ∧
                kW ≤ sz input 4 + 2 * pW)
              .kernelTooLarge)
            (andThen
              (guardErr
                (1 ≤ (outputSizes input kD kH kW sD sH sW pD pH pW).1 ∧
                  1 ≤ (outputSizes input kD kH kW sD sH sW pD pH pW).2.2 ∧
                  1 ≤ (outputSizes input kD kH kW sD sH sW pD pH pW).2.1)
                .outputTooSmall)
              (andThen
                (checkInputChannels input weight input.length kH kW)
                (checkGradOutput gradOutput weight bias input.length
                  (outputSizes input kD kH kW sD sH sW pD pH pW).1
                  (outputSizes input kD kH kW sD sH sW pD pH pW).2.1
                  (outputSizes input kD kH kW sD sH sW pD pH pW).2.2)))))))

/-- Shape part of view_weight_2d (lines 152-162): a rank-5 weight is
flattened to (out_channels, in_channels * kd * kh * kw); anything else is
returned unchanged. -/
def view_weight_2d (w : List Int) : List Int :=
  if w.length = 5 then [sz w 0, sz w 1 * sz w 2 * sz w 3 * sz w 4] else w

/-- Output sizes as recomputed by slow_conv3d_forward_out_cpu (lines
483-488) with plain C++ truncating division. -/
def forwardOutputSizes (input : List Int) (kD kH kW sD sH sW pD pH pW : Int) :
    Int × Int × Int :=
  ((sz input 2 + 2 * pD - kD).tdiv sD + 1,
   (sz input 3 + 2 * pH - kH).tdiv sH + 1,
   (sz input 4 + 2 * pW - kW).tdiv sW + 1)

/-- Final state of the buffers of the forward entry point: the shapes of
output, finput and fgrad_input after the call, the batch indices the
parallel loop processed, and the error outcome, if any. -/
structure ForwardResult where
  output : List Int
  finput : List Int
  fgradInput : List Int
  processedItems : List Nat
  err : Option ConvErr
  deriving DecidableEq

/-- Embedding of slow_conv3d_forward_out_cpu (lines 433-531) at the level of
buffer shapes and effects: the shape check runs first and on failure the
call returns with every buffer exactly as passed in; on success finput and
output are resized and the parallel loop processes each batch index.
fgrad_input is never touched by this function (it is only returned in the
result tuple, line 530). -/
def slow_conv3d_forward_out_cpu (output finput fgradInput : List Int)
    (self weight : List Int) (bias : Option (List Int))
    (kD kH kW sD sH sW pD pH pW : Int) : ForwardResult :=
  match slow_conv3d_shape_check self none (some weight) bias
      kD kH kW sD sH sW pD pH pW false with
  | .err e => ⟨output, finput, fgradInput, [], some e⟩
  | .ok =>
      ⟨[sz self 0, sz (view_weight_2d weight) 0,
          (forwardOutputSizes self kD kH kW sD sH sW pD pH pW).1,
          (forwardOutputSizes self kD kH kW sD sH sW pD pH pW).2.1,
          (forwardOutputSizes self kD kH kW sD sH sW pD pH pW).2.2],
        [sz self 0, sz self 1 * kD * kH * kW,
          (forwardOutputSizes self kD kH kW sD sH sW pD pH pW).1 *
            (forwardOutputSizes self kD kH kW sD sH sW pD pH pW).2.1 *
            (forwardOutputSizes self kD kH kW sD sH sW pD pH pW).2.2],
        fgradInput,
        List.range (sz self 0).toNat,
        none⟩

/-- The caller-visible buffers of the backward entry point. -/
inductive BufId where
  | outputB
  | finputB
  | fgradInputB
  | gradInputB
  | gradWeightB
  | gradBiasB
  deriving DecidableEq

/-- A mutation of a caller-passed buffer, in program order. -/
inductive Event where
  | resize : BufId → Event
  | zeroFill : BufId → Event
  | write : BufId → Event
  deriving DecidableEq

/-- Buffer mutations of one iteration of the grad-input parallel loop
(slow_conv3d_backward_update_grad_input_frame, lines 218-257): addmm into
the fgrad_input slice, zero of the grad_input slice, fold-accumulate into
the grad_input slice. -/
def gradInputFrameEvents : List Event :=
  [.write .fgradInputB, .zeroFill .gradInputB, .write .gradInputB]

/-- Embedding of slow_conv3d_backward_out_cpu_template (lines 259-327) as
its validation outcome and its buffer mutations in program order: the shape
check runs strictly first; then grad_input is resized, fgrad_input is
resized and zero-filled, and the parallel loop runs over the batch. -/
def slow_conv3d_backward_out_cpu_template (self gradOutput weight : List Int)
    (kD kH kW sD sH sW pD pH pW : Int) : List Event × Chk :=
  match slow_conv3d_shape_check self (some gradOutput) (some weight) none
      kD kH kW sD sH sW pD pH pW false with
  | .err e => ([], .err e)
  | .ok =>
      ([.resize .gradInputB, .resize .fgradInputB, .zeroFill .fgradInputB] ++
          (List.replicate (sz self 0).toNat gradInputFrameEvents).flatten,
        .ok)

/-- Embedding of slow_conv3d_backward_parameters_out_cpu_template (lines
363-429): its shape check (with weight_optional = true, on the grad_weight
and grad_bias buffers as they are when the template is entered) runs before
the accumulation loop over the batch. -/
def slow_conv3d_backward_parameters_out_cpu_template
    (gradWeight gradBias : Option (List Int)) (self gradOutput : List Int)
    (kD kH kW sD sH sW pD pH pW : Int) : List Event × Chk :=
  match slow_conv3d_shape_check self (some gradOutput) gradWeight gradBias
      kD kH kW sD sH sW pD pH pW true with
  | .err e => ([], .err e)
  | .ok =>
      ((List.replicate (sz self 0).toNat
          ((if gradWeight.isSome then [Event.write .gradWeightB] else []) ++
            (if gradBias.isSome then [Event.write .gradBiasB] else []))).flatten,
        .ok)

/-- Embedding of slow_conv3d_backward_out_cpu (lines 556-607): when
grad_input is requested the grad-input template runs first (validating
before any mutation); then, when requested, grad_weight is resized to the
weight shape and zero-filled and grad_bias is resized to the grad_output
channel count and zero-filled (lines 582-590), and only afterwards does the
parameter template run its own validation (line 593 into line 387). -/
def slow_conv3d_backward_out_cpu (gradInputReq gradWeightReq gradBiasReq : Bool)
    (gradOutput self weight : List Int)
    (kD kH kW sD sH sW pD pH pW : Int) : List Event × Chk :=
  match
    (if gradInputReq then
      slow_conv3d_backward_out_cpu_template self gradOutput weight
        kD kH kW sD sH sW pD pH pW
    else ([], .ok)) with
  | (evs, .err e) => (evs, .err e)
  | (evs, .ok) =>
      let evs2 := evs ++
        (if gradWeightReq then
          [Event.resize .gradWeightB, Event.zeroFill .gradWeightB] else []) ++
        (if gradBiasReq then
          [Event.resize .gradBiasB, Event.zeroFill .gradBiasB] else [])
      if gradWeightReq || gradBiasReq then
        match slow_conv3d_backward_parameters_out_cpu_template
            (if gradWeightReq then some weight else none)
            (if gradBiasReq then some [sz gradOutput 1] else none)
            self gradOutput kD kH kW sD sH sW pD pH pW with
        | (evs3, .err e) => (evs2 ++ evs3, .err e)
        | (evs3, .ok) => (evs2 ++ evs3, .ok)
      else (evs2, .ok)

/-- Entry (i, j) of a dense matrix product with inner dimension K, the
contract of at::mm_out. -/
def mmEntry (A B : Nat → Nat → Int) (K : Nat) : Nat → Nat → Int :=
  fun i j => ∑ k ∈ Finset.range K, A i k * B k j

/-- Entry (i, j) of Tensor.addmm_(A, B, beta, alpha): beta * self + alpha *
(A * B), the contract of the dense accumulate-multiply. -/
def addmmEntry (self A B : Nat → Nat → Int) (K : Nat) (beta alpha : Int) :
    Nat → Nat → Int :=
  fun i j => beta * self i j + alpha * mmEntry A B K i j

/-- Modelled from the spec: the external Unfold primitive Unfold3dCopyCPU
(declared in ATen/native/Unfold3d.h; its implementation is a separate
sliding-window indexing module, not part of these sources). Per section 6 of
the spec, it fills a (channels * kd * kh * kw) x (od * oh * ow) matrix whose
column j is the flattened receptive field producing output position j, with
zeros where the receptive field reaches into the padding. Row r flattens
(channel, kernel offset) in row-major order and column j flattens the output
position (od, oh, ow) in row-major order. -/
def Unfold3dCopyCPU (x : Nat → Nat → Nat → Nat → Int)
    (iD iH iW oD oH oW kD kH kW sD sH sW pD pH pW : Nat) : Nat → Nat → Int :=
  fun r j =>
    let c := r / (kD * kH * kW)
    let a := r / (kH * kW) % kD
    let b := r / kW % kH
    let e := r % kW
    let od := j / (oH * oW)
    let oh := j / oW % oH
    let ow := j % oW
    let zd : Int := (od * sD + a : Nat) - (pD : Int)
    let zh : Int := (oh * sH + b : Nat) - (pH : Int)
    let zw : Int := (ow * sW + e : Nat) - (pW : Int)
    if 0 ≤ zd ∧ zd < (iD : Int) ∧ 0 ≤ zh ∧ zh < (iH : Int) ∧ 0 ≤ zw ∧ zw < (iW : Int) then
      x c zd.toNat zh.toNat zw.toNat
    else 0

/-- Modelled from the spec: the external Fold primitive
unfolded3d_acc_kernel_cpu (declared in ATen/native/Unfold3d.h, not part of
these sources). Per section 6 of the spec, it sums each column entry of the
unfolded gradient matrix back into the receptive-field position of the
gradient volume it came from. -/
def unfolded3d_acc (col : Nat → Nat → Int)
    (iD iH iW oD oH oW kD kH kW sD sH sW pD pH pW : Nat) :
    Nat → Nat → Nat → Nat → Int :=
  fun c z y x =>
    ∑ a ∈ Finset.range kD, ∑ b ∈ Finset.range kH, ∑ e ∈ Finset.range kW,
      ∑ od ∈ Finset.range oD, ∑ oh ∈ Finset.range oH, ∑ ow ∈ Finset.range oW,
        if ((od * sD + a : Nat) : Int) - (pD : Int) = (z : Int) ∧
            ((oh * sH + b : Nat) : Int) - (pH : Int) = (y : Int) ∧
            ((ow * sW + e : Nat) : Int) - (pW : Int) = (x : Int) then
          col (((c * kD + a) * kH + b) * kW + e) ((od * oH + oh) * oW + ow)
        else 0

/-- Element view of view_weight_2d (lines 152-162) on a contiguous rank-5
weight: entry (o, k) of the flattened matrix is the weight element whose
flat in-channel/kernel index is k. -/
def view_weight_2d_val (w5 : Nat → Nat → Nat → Nat → Nat → Int)
    (kD kH kW : Nat) : Nat → Nat → Int :=
  fun o k => w5 o (k / (kD * kH * kW)) (k / (kH * kW) % kD) (k / kW % kH) (k % kW)

/-- Embedding of slow_conv3d_update_output_frame (lines 164-216): unfold the
input slice into the finput slice, then either fill the output slice per
channel with the bias and accumulate weight * finput into it
(output2d.addmm_(weight, finput, 1, 1)), or overwrite it with weight *
finput (at::mm_out). Returns the resulting (output2d slice, finput slice).
The first argument is the prior content of the output slice. -/
def slow_conv3d_update_output_frame (output : Nat → Nat → Int)
    (weight : Nat → Nat → Int) (bias : Option (Nat → Int))
    (input : Nat → Nat → Nat → Nat → Int)
    (C iD iH iW oD oH oW kD kH kW sD sH sW pD pH pW : Nat) :
    (Nat → Nat → Int) × (Nat → Nat → Int) :=
  let finput := Unfold3dCopyCPU input iD iH iW oD oH oW kD kH kW sD sH sW pD pH pW
  match bias with
  | some b =>
      (addmmEntry (fun i _ => b i) weight finput (C * kD * kH * kW) 1 1, finput)
  | none => (mmEntry weight finput (C * kD * kH * kW), finput)

/-- Embedding of slow_conv3d_backward_update_grad_input_frame (lines
218-257): fgrad slice = transposed weight times the reshaped grad-output
slice (addmm_ with beta 0, alpha 1, so the prior fgrad content is
discarded), then the grad-input slice is zeroed and the fold primitive
accumulates the fgrad slice into it. Returns (grad_input slice, fgrad
slice). -/
def slow_conv3d_backward_update_grad_input_frame
    (gradOutput : Nat → Nat → Nat → Nat → Int) (tweight : Nat → Nat → Int)
    (fgradPrior : Nat → Nat → Int)
    (nOut iD iH iW oD oH oW kD kH kW sD sH sW pD pH pW : Nat) :
    (Nat → Nat → Nat → Nat → Int) × (Nat → Nat → Int) :=
  let gradOutput2d := fun i j => gradOutput i (j / (oH * oW)) (j / oW % oH) (j % oW)
  let fgrad := addmmEntry fgradPrior tweight gradOutput2d nOut 0 1
  (unfolded3d_acc fgrad iD iH iW oD oH oW kD kH kW sD sH sW pD pH pW, fgrad)

/-- Output contents of the forward parallel loop (lines 497-528): batch item
t of the output is the frame computation on batch item t of the input, with
the prior content of that output slice. -/
def forward_output_batch (outputPrior : Nat → Nat → Nat → Int)
    (input : Nat → Nat → Nat → Nat → Nat → Int) (weight : Nat → Nat → Int)
    (bias : Option (Nat → Int))
    (C iD iH iW oD oH oW kD kH kW sD sH sW pD pH pW : Nat) :
    Nat → Nat → Nat → Int :=
  fun t =>
    (slow_conv3d_update_output_frame (outputPrior t) weight bias (input t)
        C iD iH iW oD oH oW kD kH kW sD sH sW pD pH pW).1

/-- Column-buffer contents of the forward parallel loop: batch item t of
finput is the unfold of batch item t of the input. -/
def forward_finput_batch (outputPrior : Nat → Nat → Nat → Int)
    (input : Nat → Nat → Nat → Nat → Nat → Int) (weight : Nat → Nat → Int)
    (bias : Option (Nat → Int))
    (C iD iH iW oD oH oW kD kH kW sD sH sW pD pH pW : Nat) :
    Nat → Nat → Nat → Int :=
  fun t =>
    (slow_conv3d_update_output_frame (outputPrior t) weight bias (input t)
        C iD iH iW oD oH oW kD kH kW sD sH sW pD pH pW).2

/-- Grad-input contents of the backward grad-input parallel loop (lines
304-326): fgrad_input is zero-filled once before the loop, so every batch
item runs the frame with a zero prior fgrad slice. -/
def grad_input_batch (gradOutput : Nat → Nat → Nat → Nat → Nat → Int)
    (tweight : Nat → Nat → Int)
    (nOut iD iH iW oD oH oW kD kH kW sD sH sW pD pH pW : Nat) :
    Nat → Nat → Nat → Nat → Nat → Int :=
  fun t =>
    (slow_conv3d_backward_update_grad_input_frame (gradOutput t) tweight
        (fun _ _ => 0) nOut iD iH iW oD oH oW kD kH kW sD sH sW pD pH pW).1

/-- Following the words of the spec (section 8, batch independence): run
Forward on each batch-of-1 slice separately and concatenate the outputs
along the batch dimension; item t of the concatenation is item 0 of the run
on the batch-of-1 consisting of slice t. -/
def forward_output_slicewise (outputPrior : Nat → Nat → Nat → Int)
    (input : Nat → Nat → Nat → Nat → Nat → Int) (weight : Nat → Nat → Int)
    (bias : Option (Nat → Int))
    (C iD iH iW oD oH oW kD kH kW sD sH sW pD pH pW : Nat) :
    Nat → Nat → Nat → Int :=
  fun t =>
    forward_output_batch (fun _ => outputPrior t) (fun _ => input t) weight bias
      C iD iH iW oD oH oW kD kH kW sD sH sW pD pH pW 0

/-- Following the words of the spec (section 8): the column buffer obtained
by running Forward on each batch-of-1 slice and concatenating. -/
def forward_finput_slicewise (outputPrior : Nat → Nat → Nat → Int)
    (input : Nat → Nat → Nat → Nat → Nat → Int) (weight : Nat → Nat → Int)
    (bias : Option (Nat → Int))
    (C iD iH iW oD oH oW kD kH kW sD sH sW pD pH pW : Nat) :
    Nat → Nat → Nat → Int :=
  fun t =>
    forward_finput_batch (fun _ => outputPrior t) (fun _ => input t) weight bias
      C iD iH iW oD oH oW kD kH kW sD sH sW pD pH pW 0

/-- Following the words of the spec (section 8): the input gradient obtained
by running the grad-input pass on each batch-of-1 slice and concatenating. -/
def grad_input_slicewise (gradOutput : Nat → Nat → Nat → Nat → Nat → Int)
    (tweight : Nat → Nat → Int)
    (nOut iD iH iW oD oH oW kD kH kW sD sH sW pD pH pW : Nat) :
    Nat → Nat → Nat → Nat → Nat → Int :=
  fun t =>
    grad_input_batch (fun _ => gradOutput t) tweight
      nOut iD iH iW oD oH oW kD kH kW sD sH sW pD pH pW 0

theorem andThen_ok {a b : Chk} : andThen a b = .ok ↔ a = .ok ∧ b = .ok := by
  cases a <;> simp [andThen]

theorem guardErr_ok {c : Prop} [Decidable c] {e : ConvErr} :
    guardErr c e = .ok ↔ c := by
  by_cases h : c <;> simp [guardErr, h]

theorem numel_pos_iff {l : List Int} (hnn : ∀ d ∈ l, 0 ≤ d) :
    0 < numel l ↔ ∀ d ∈ l, d ≠ 0 := by
  induction l with
  | nil => simp [numel]
  | cons a t ih =>
      have hat : 0 ≤ a := hnn a (by simp)
      have htn : ∀ d ∈ t, 0 ≤ d := fun d hd => hnn d (by simp [hd])
      have htp : 0 ≤ numel t := List.prod_nonneg htn
      have ht := ih htn
      simp only [numel, List.prod_cons] at *
      constructor
      · intro h
        have ha : a ≠ 0 := by
          rintro rfl; simp at h
        have htpos : 0 < t.prod := by
          rcases lt_or_eq_of_le htp with h2 | h2
          · exact h2
          · rw [← h2] at h; simp at h
        intro d hd
        simp at hd
        rcases hd with rfl | hd
        · exact ha
        · exact ht.mp htpos d hd
      · intro h
        have ha : 0 < a := lt_of_le_of_ne hat (Ne.symm (h a (by simp)))
        have htpos : 0 < t.prod := ht.mpr (fun d hd => h d (by simp [hd]))
        exact mul_pos ha htpos

theorem sz_pos_of_numel_pos {l : List Int} (hnn : ∀ d ∈ l, 0 ≤ d)
    (hp : 0 < numel l) {i : Nat} (hi : i < l.length) : 0 < sz l i := by
  have hmem : l.getD i 0 ∈ l := by
    rw [List.getD_eq_getElem l 0 hi]
    exact List.getElem_mem hi
  have hne := (numel_pos_iff hnn).mp hp _ hmem
  have := hnn _ hmem
  simp only [sz]
  omega

theorem div_rtn_eq_fdiv {x y : Int} (hx : 0 ≤ x) (hy : 0 < y) :
    div_rtn x y = x.fdiv y := by
  have hr : 0 ≤ x.tmod y := Int.tmod_nonneg _ hx
  rw [div_rtn, if_neg, Int.fdiv_eq_tdiv hx hy.le]
  rintro ⟨_, h2⟩
  exact h2 (by constructor <;> intro h <;> omega)

/-- Claim C1: the claim states that for a rank-2 weight the implied
input-channel count is the second weight dimension divided by the full
kernel volume kd * kh * kw. The code (line 132) divides by kernel_height *
kernel_width only, contradicting both the spec and the code itself: a valid
rank-5 weight (1,1,2,1,1) passes the check on input (1,1,4,4,4) with kernel
(2,1,1), yet its own 2-D flattening view_weight_2d gives (1,2), which the
check rejects with InvalidArgument, while the division by the full kernel
volume claimed by the spec would accept it (2 / (2*1*1) = 1 = input
channels). -/
theorem rank2_weight_channel_check_bug :
    slow_conv3d_shape_check [1, 1, 4, 4, 4] none (some [1, 2]) none
        2 1 1 1 1 1 0 0 0 false = .err .inputChannels ∧
      (sz [1, 2] 1).tdiv (2 * 1 * 1) = sz [1, 1, 4, 4, 4] 1 ∧
      view_weight_2d [1, 1, 2, 1, 1] = [1, 2] ∧
      slow_conv3d_shape_check [1, 1, 4, 4, 4] none (some [1, 1, 2, 1, 1]) none
        2 1 1 1 1 1 0 0 0 false = .ok := by
  decide

/-- Claim C8: the input gate of the shape validation accepts exactly the
rank-5 shapes that either have no zero dimension or have a zero batch
dimension with all four remaining dimensions nonzero (for real tensors, so
all sizes nonnegative). -/
theorem input_shape_check_iff (l : List Int) (hnn : ∀ d ∈ l, 0 ≤ d) :
    checkInputShape l = .ok ↔
      (l.length = 5 ∧
        ((∀ d ∈ l, d ≠ 0) ∨
          (sz l 0 = 0 ∧ sz l 1 ≠ 0 ∧ sz l 2 ≠ 0 ∧ sz l 3 ≠ 0 ∧ sz l 4 ≠ 0))) := by
  rw [checkInputShape, guardErr_ok, numel_pos_iff hnn]
  tauto

/-- Witness for C8: the empty-batch shape (0,1,4,4,4) is accepted. -/
theorem input_shape_check_iff_witness :
    checkInputShape [0, 1, 4, 4, 4] = .ok :=
  (input_shape_check_iff [0, 1, 4, 4, 4] (by decide)).mpr (by decide)

/-- Claim C9: in the grad-output stage used by the parameter-gradient pass
(weight undefined, bias and grad_output defined), a zero-dimensional scalar
bias is accepted and declares exactly 1 output channel for the grad_output
channel check, and an empty bias is rejected with the non-empty-bias
InvalidArgument; a full shape check run of the parameter-gradient
configuration with a scalar bias succeeds. -/
theorem scalar_bias_grad_output_check (go : List Int) (oD oH oW : Int) :
    (checkGradOutput (some go) none (some ([] : List Int)) 5 oD oH oW = .ok ↔
        go.length = 5 ∧ sz go 1 = 1 ∧ sz go 2 = oD ∧ sz go 3 = oH ∧ sz go 4 = oW) ∧
      checkGradOutput (some go) none (some [(0 : Int)]) 5 oD oH oW =
        .err .emptyBias ∧
      slow_conv3d_shape_check [1, 1, 4, 4, 4] (some [1, 1, 4, 4, 4]) none
        (some ([] : List Int)) 1 1 1 1 1 1 0 0 0 true = .ok := by
  refine ⟨?_, ?_, by decide⟩
  · rw [checkGradOutput]
    simp only [check_dim_size, andThen_ok, guardErr_ok]
    simp [numel, sz]
    tauto
  · rfl

theorem shape_check_ok_output_guard (input : List Int)
    (gradOutput weight bias : Option (List Int))
    (kD kH kW sD sH sW pD pH pW : Int) (wOpt : Bool)
    (h : slow_conv3d_shape_check input gradOutput weight bias
        kD kH kW sD sH sW pD pH pW wOpt = .ok) :
    1 ≤ (outputSizes input kD kH kW sD sH sW pD pH pW).1 ∧
      1 ≤ (outputSizes input kD kH kW sD sH sW pD pH pW).2.1 ∧
      1 ≤ (outputSizes input kD kH kW sD sH sW pD pH pW).2.2 := by
  rw [slow_conv3d_shape_check] at h
  simp only [andThen_ok, guardErr_ok] at h
  exact ⟨h.2.2.2.2.2.1.1, h.2.2.2.2.2.1.2.2, h.2.2.2.2.2.1.2.1⟩

/-- Claim C3: under the validated preconditions (positive strides, padded
input at least the kernel), the output sizes computed by the shape check
and those recomputed by the forward entry point both equal
floor((input + 2 * pad - kernel) / stride) + 1 per axis; and whenever any
computed output dimension is below 1, the shape check rejects the call with
InvalidArgument and the forward entry point returns an error instead of
producing output. -/
theorem output_size_formula_and_guard (input : List Int)
    (gradOutput weight bias : Option (List Int))
    (output finput fgradInput wdims : List Int) (biasF : Option (List Int))
    (kD kH kW sD sH sW pD pH pW : Int) (wOpt : Bool) :
    (0 < sD → 0 < sH → 0 < sW →
      kD ≤ sz input 2 + 2 * pD → kH ≤ sz input 3 + 2 * pH →
      kW ≤ sz input 4 + 2 * pW →
      outputSizes input kD kH kW sD sH sW pD pH pW =
        ((sz input 2 + 2 * pD - kD).fdiv sD + 1,
          (sz input 3 + 2 * pH - kH).fdiv sH + 1,
          (sz input 4 + 2 * pW - kW).fdiv sW + 1) ∧
      forwardOutputSizes input kD kH kW sD sH sW pD pH pW =
        outputSizes input kD kH kW sD sH sW pD pH pW) ∧
    ((outputSizes input kD kH kW sD sH sW pD pH pW).1 < 1 ∨
        (outputSizes input kD kH kW sD sH sW pD pH pW).2.1 < 1 ∨
        (outputSizes input kD kH kW sD sH sW pD pH pW).2.2 < 1 →
      slow_conv3d_shape_check input gradOutput weight bias
          kD kH kW sD sH sW pD pH pW wOpt ≠ .ok ∧
      (slow_conv3d_forward_out_cpu output finput fgradInput input wdims biasF
          kD kH kW sD sH sW pD pH pW).err ≠ none) := by
  constructor
  · intro h1 h2 h3 h4 h5 h6
    have e1 := div_rtn_eq_fdiv (x := sz input 2 + 2 * pD - kD) (y := sD) (by omega) h1
    have e2 := div_rtn_eq_fdiv (x := sz input 3 + 2 * pH - kH) (y := sH) (by omega) h2
    have e3 := div_rtn_eq_fdiv (x := sz input 4 + 2 * pW - kW) (y := sW) (by omega) h3
    have f1 := Int.fdiv_eq_tdiv (a := sz input 2 + 2 * pD - kD) (b := sD) (by omega) h1.le
    have f2 := Int.fdiv_eq_tdiv (a := sz input 3 + 2 * pH - kH) (b := sH) (by omega) h2.le
    have f3 := Int.fdiv_eq_tdiv (a := sz input 4 + 2 * pW - kW) (b := sW) (by omega) h3.le
    constructor
    · simp only [outputSizes]
      rw [e1, e2, e3]
    · simp only [outputSizes, forwardOutputSizes]
      rw [e1, e2, e3, f1, f2, f3]
  · intro hlt
    constructor
    · intro hok
      have hg := shape_check_ok_output_guard input gradOutput weight bias
        kD kH kW sD sH sW pD pH pW wOpt hok
      rcases hlt with h | h | h <;> omega
    · intro hnone
      cases hc : slow_conv3d_shape_check input none (some wdims) biasF
          kD kH kW sD sH sW pD pH pW false with
      | err e => simp [slow_conv3d_forward_out_cpu, hc] at hnone
      | ok =>
          have hg := shape_check_ok_output_guard input none (some wdims) biasF
            kD kH kW sD sH sW pD pH pW false hc
          rcases hlt with h | h | h <;> omega

/-- Witness for C3: for input (1,1,4,4,4), kernel 2x2x2, stride 1, padding 0
the computed output size is (3,3,3); and the spec error scenario of a 3x3x3
input with a 5x5x5 kernel and no padding is rejected. -/
theorem output_size_formula_and_guard_witness :
    outputSizes [1, 1, 4, 4, 4] 2 2 2 1 1 1 0 0 0 = (3, 3, 3) ∧
      slow_conv3d_shape_check [1, 1, 3, 3, 3] none (some [1, 1, 5, 5, 5]) none
        5 5 5 1 1 1 0 0 0 false ≠ .ok := by
  constructor
  · have h := (output_size_formula_and_guard [1, 1, 4, 4, 4] none none none
      [] [] [] [] none 2 2 2 1 1 1 0 0 0 false).1
      (by decide) (by decide) (by decide) (by decide) (by decide) (by decide)
    exact h.1.trans (by decide)
  · exact ((output_size_formula_and_guard [1, 1, 3, 3, 3] none
      (some [1, 1, 5, 5, 5]) none [] [] [] [1, 1, 5, 5, 5] none
      5 5 5 1 1 1 0 0 0 false).2 (by decide)).1

/-- Counterexample to C4 as stated: a successful forward call that resizes
output and finput but returns the gradient-column scratch tensor
fgrad_input exactly as it was passed in (still the initial shape (0)), so
Forward does not change its allocation state. -/
theorem forward_returns_fgrad_untouched_cex :
    (slow_conv3d_forward_out_cpu [0] [0] [0] [1, 1, 4, 4, 4] [1, 1, 2, 2, 2]
        (some [1]) 2 2 2 1 1 1 0 0 0).err = none ∧
      (slow_conv3d_forward_out_cpu [0] [0] [0] [1, 1, 4, 4, 4] [1, 1, 2, 2, 2]
        (some [1]) 2 2 2 1 1 1 0 0 0).finput = [1, 8, 27] ∧
      (slow_conv3d_forward_out_cpu [0] [0] [0] [1, 1, 4, 4, 4] [1, 1, 2, 2, 2]
        (some [1]) 2 2 2 1 1 1 0 0 0).fgradInput = [0] := by
  decide

/-- Claim C4 (amended): every successful forward call resizes output to
(batch, out_channels, od, oh, ow) and finput to (batch, in_channels * kd *
kh * kw, od * oh * ow) and processes every batch item, but returns
fgrad_input untouched; it is the backward grad-input pass, not Forward,
that resizes fgrad_input: every successful run of the grad-input template
(with the same self, weight and parameters and any grad_output) emits a
resize of fgrad_input among its buffer mutations. -/
theorem forward_frame_effects
    (output finput fgradInput self weight gradOutput : List Int)
    (bias : Option (List Int)) (kD kH kW sD sH sW pD pH pW : Int)
    (h : (slow_conv3d_forward_out_cpu output finput fgradInput self weight bias
        kD kH kW sD sH sW pD pH pW).err = none) :
    slow_conv3d_forward_out_cpu output finput fgradInput self weight bias
        kD kH kW sD sH sW pD pH pW =
      ⟨[sz self 0, sz (view_weight_2d weight) 0,
          (forwardOutputSizes self kD kH kW sD sH sW pD pH pW).1,
          (forwardOutputSizes self kD kH kW sD sH sW pD pH pW).2.1,
          (forwardOutputSizes self kD kH kW sD sH sW pD pH pW).2.2],
        [sz self 0, sz self 1 * kD * kH * kW,
          (forwardOutputSizes self kD kH kW sD sH sW pD pH pW).1 *
            (forwardOutputSizes self kD kH kW sD sH sW pD pH pW).2.1 *
            (forwardOutputSizes self kD kH kW sD sH sW pD pH pW).2.2],
        fgradInput, List.range (sz self 0).toNat, none⟩ ∧
      ((slow_conv3d_backward_out_cpu_template self gradOutput weight
            kD kH kW sD sH sW pD pH pW).2 = .ok →
        Event.resize .fgradInputB ∈
          (slow_conv3d_backward_out_cpu_template self gradOutput weight
            kD kH kW sD sH sW pD pH pW).1) := by
  constructor
  · cases hc : slow_conv3d_shape_check self none (some weight) bias
        kD kH kW sD sH sW pD pH pW false with
    | err e => simp [slow_conv3d_forward_out_cpu, hc] at h
    | ok => simp [slow_conv3d_forward_out_cpu, hc]
  · intro hok
    cases hc : slow_conv3d_shape_check self (some gradOutput) (some weight) none
        kD kH kW sD sH sW pD pH pW false with
    | err e => simp [slow_conv3d_backward_out_cpu_template, hc] at hok
    | ok => simp [slow_conv3d_backward_out_cpu_template, hc]

/-- Witness for the amended C4: a concrete successful forward run with the
computed shapes and fgrad_input unchanged, and the matching grad-input
backward template run (same input, weight and parameters, grad_output of
the produced output shape) succeeds and resizes fgrad_input. -/
theorem forward_frame_effects_witness :
    slow_conv3d_forward_out_cpu [0] [0] [0] [1, 1, 4, 4, 4] [1, 1, 2, 2, 2]
        (some [1]) 2 2 2 1 1 1 0 0 0 =
      ⟨[1, 1, 3, 3, 3], [1, 8, 27], [0], [0], none⟩ ∧
      (slow_conv3d_backward_out_cpu_template [1, 1, 4, 4, 4] [1, 1, 3, 3, 3]
          [1, 1, 2, 2, 2] 2 2 2 1 1 1 0 0 0).2 = .ok ∧
      Event.resize BufId.fgradInputB ∈
        (slow_conv3d_backward_out_cpu_template [1, 1, 4, 4, 4] [1, 1, 3, 3, 3]
          [1, 1, 2, 2, 2] 2 2 2 1 1 1 0 0 0).1 := by
  have h := forward_frame_effects [0] [0] [0] [1, 1, 4, 4, 4] [1, 1, 2, 2, 2]
    [1, 1, 3, 3, 3] (some [1]) 2 2 2 1 1 1 0 0 0 (by decide)
  exact ⟨h.1.trans (by decide), by decide, h.2 (by decide)⟩

/-- Claim C10: a valid forward call with batch size 0 succeeds, resizes
output to (0, out_channels, od, oh, ow) and finput to (0, in_channels * kd *
kh * kw, od * oh * ow), returns fgrad_input as passed, and performs no
per-item compute (the parallel loop processes no batch index). -/
theorem empty_batch_forward (c d h w : Int)
    (wdims output finput fgradInput : List Int) (bias : Option (List Int))
    (kD kH kW sD sH sW pD pH pW : Int)
    (hcheck : slow_conv3d_shape_check [0, c, d, h, w] none (some wdims) bias
        kD kH kW sD sH sW pD pH pW false = .ok) :
    slow_conv3d_forward_out_cpu output finput fgradInput [0, c, d, h, w] wdims
        bias kD kH kW sD sH sW pD pH pW =
      ⟨[0, sz (view_weight_2d wdims) 0,
          (forwardOutputSizes [0, c, d, h, w] kD kH kW sD sH sW pD pH pW).1,
          (forwardOutputSizes [0, c, d, h, w] kD kH kW sD sH sW pD pH pW).2.1,
          (forwardOutputSizes [0, c, d, h, w] kD kH kW sD sH sW pD pH pW).2.2],
        [0, c * kD * kH * kW,
          (forwardOutputSizes [0, c, d, h, w] kD kH kW sD sH sW pD pH pW).1 *
            (forwardOutputSizes [0, c, d, h, w] kD kH kW sD sH sW pD pH pW).2.1 *
            (forwardOutputSizes [0, c, d, h, w] kD kH kW sD sH sW pD pH pW).2.2],
        fgradInput, [], none⟩ := by
  simp [slow_conv3d_forward_out_cpu, hcheck, sz]

/-- Witness for C10: empty batch with one channel, 4x4x4 input, 2x2x2
kernel succeeds with batch-0 shapes and an empty processed-item list. -/
theorem empty_batch_forward_witness :
    slow_conv3d_forward_out_cpu [0] [0] [0] [0, 1, 4, 4, 4] [1, 1, 2, 2, 2]
        none 2 2 2 1 1 1 0 0 0 =
      ⟨[0, 1, 3, 3, 3], [0, 8, 27], [0], [], none⟩ :=
  (empty_batch_forward 1 4 4 4 [1, 1, 2, 2, 2] [0] [0] [0] none
      2 2 2 1 1 1 0 0 0 (by decide)).trans (by decide)

theorem sz_singleton (x : Int) : sz [x] 0 = x := rfl

theorem numel_singleton (x : Int) : numel [x] = x := by simp [numel]

theorem params_check_ok (input go w : List Int) (kD kH kW sD sH sW pD pH pW : Int)
    (hw : ∀ x ∈ w, 0 ≤ x)
    (h : slow_conv3d_shape_check input (some go) (some w) none
        kD kH kW sD sH sW pD pH pW false = .ok)
    (w' b' : Option (List Int))
    (hw' : w' = some w ∨ w' = none)
    (hb' : b' = some [sz go 1] ∨ b' = none) :
    slow_conv3d_shape_check input (some go) w' b'
        kD kH kW sD sH sW pD pH pW true = .ok := by
  simp only [slow_conv3d_shape_check, checkWeightBias, checkInputChannels,
    checkGradOutput, check_dim_size, andThen_ok, guardErr_ok] at h
  obtain ⟨hk, hs, hwb, hin, hfit, hout, hic, hgo⟩ := h
  have hwpos : 0 < sz w 0 :=
    sz_pos_of_numel_pos hw hwb.1.1 (by rcases hwb.1.2 with h2 | h2 <;> omega)
  rcases hw' with rfl | rfl <;> rcases hb' with rfl | rfl <;>
    simp only [slow_conv3d_shape_check, checkWeightBias, checkInputChannels,
      checkGradOutput, check_dim_size, andThen_ok, guardErr_ok]
  · exact ⟨hk, hs, ⟨hwb.1, rfl, by rw [sz_singleton]; exact hgo.1.2⟩,
      hin, hfit, hout, hic, hgo⟩
  · exact ⟨hk, hs, ⟨hwb.1, trivial⟩, hin, hfit, hout, hic, hgo⟩
  · refine ⟨hk, hs, trivial, hin, hfit, hout, trivial, ⟨?_, hgo.1.1, ?_⟩, hgo.2⟩
    · rw [numel_singleton]
      have := hgo.1.2
      omega
    · simp [sz_singleton]
  · exact ⟨hk, hs, trivial, hin, hfit, hout, trivial, trivial, hgo.2⟩

/-- Claim C2 (amended): every forward-path validation failure is raised
before any buffer is resized or written, and the forward call returns with
every caller-passed buffer unchanged; on the backward entry point, any
buffer mutation that precedes a validation error is a resize or zero-fill
of grad_weight or grad_bias (which the entry point performs, when they are
requested, before the parameter-pass validation runs); no other
caller-passed buffer is ever touched on an error path. -/
theorem error_paths_leave_buffers
    (output finput fgradInput self weight gradOutput : List Int)
    (bias : Option (List Int)) (kD kH kW sD sH sW pD pH pW : Int)
    (giReq gwReq gbReq : Bool) (e : ConvErr) (evs : List Event)
    (hw : ∀ x ∈ weight, 0 ≤ x) :
    ((slow_conv3d_forward_out_cpu output finput fgradInput self weight bias
          kD kH kW sD sH sW pD pH pW).err = some e →
      slow_conv3d_forward_out_cpu output finput fgradInput self weight bias
          kD kH kW sD sH sW pD pH pW =
        ⟨output, finput, fgradInput, [], some e⟩) ∧
    (slow_conv3d_backward_out_cpu giReq gwReq gbReq gradOutput self weight
          kD kH kW sD sH sW pD pH pW = (evs, .err e) →
      ∀ ev ∈ evs,
        ev = Event.resize .gradWeightB ∨ ev = Event.zeroFill .gradWeightB ∨
          ev = Event.resize .gradBiasB ∨ ev = Event.zeroFill .gradBiasB) := by
  constructor
  · intro hf
    cases hc : slow_conv3d_shape_check self none (some weight) bias
        kD kH kW sD sH sW pD pH pW false with
    | err e2 =>
        simp only [slow_conv3d_forward_out_cpu, hc] at hf ⊢
        simp_all
    | ok => simp [slow_conv3d_forward_out_cpu, hc] at hf
  · intro hb ev hev
    cases giReq with
    | true =>
        cases hc1 : slow_conv3d_shape_check self (some gradOutput) (some weight)
            none kD kH kW sD sH sW pD pH pW false with
        | err e1 =>
            simp only [slow_conv3d_backward_out_cpu,
              slow_conv3d_backward_out_cpu_template, hc1, if_true] at hb
            injection hb with h1 h2
            subst h1
            simp at hev
        | ok =>
            cases gwReq <;> cases gbReq
            · simp [slow_conv3d_backward_out_cpu,
                slow_conv3d_backward_out_cpu_template, hc1] at hb
            · have hp := params_check_ok self gradOutput weight
                kD kH kW sD sH sW pD pH pW hw hc1 none (some [sz gradOutput 1])
                (Or.inr rfl) (Or.inl rfl)
              simp [slow_conv3d_backward_out_cpu,
                slow_conv3d_backward_out_cpu_template,
                slow_conv3d_backward_parameters_out_cpu_template, hc1, hp] at hb
            · have hp := params_check_ok self gradOutput weight
                kD kH kW sD sH sW pD pH pW hw hc1 (some weight) none
                (Or.inl rfl) (Or.inr rfl)
              simp [slow_conv3d_backward_out_cpu,
                slow_conv3d_backward_out_cpu_template,
                slow_conv3d_backward_parameters_out_cpu_template, hc1, hp] at hb
            · have hp := params_check_ok self gradOutput weight
                kD kH kW sD sH sW pD pH pW hw hc1 (some weight)
                (some [sz gradOutput 1]) (Or.inl rfl) (Or.inl rfl)
              simp [slow_conv3d_backward_out_cpu,
                slow_conv3d_backward_out_cpu_template,
                slow_conv3d_backward_parameters_out_cpu_template, hc1, hp] at hb
    | false =>
        cases gwReq <;> cases gbReq
        · simp [slow_conv3d_backward_out_cpu] at hb
        · cases hc2 : slow_conv3d_shape_check self (some gradOutput) none
              (some [sz gradOutput 1]) kD kH kW sD sH sW pD pH pW true with
          | err e2 =>
              simp [slow_conv3d_backward_out_cpu,
                slow_conv3d_backward_parameters_out_cpu_template, hc2] at hb
              obtain ⟨h1, -⟩ := hb
              subst h1
              simp at hev
              rcases hev with rfl | rfl <;> tauto
          | ok =>
              simp [slow_conv3d_backward_out_cpu,
                slow_conv3d_backward_parameters_out_cpu_template, hc2] at hb
        · cases hc2 : slow_conv3d_shape_check self (some gradOutput) (some weight)
              none kD kH kW sD sH sW pD pH pW true with
          | err e2 =>
              simp [slow_conv3d_backward_out_cpu,
                slow_conv3d_backward_parameters_out_cpu_template, hc2] at hb
              obtain ⟨h1, -⟩ := hb
              subst h1
              simp at hev
              rcases hev with rfl | rfl <;> tauto
          | ok =>
              simp [slow_conv3d_backward_out_cpu,
                slow_conv3d_backward_parameters_out_cpu_template, hc2] at hb
        · cases hc2 : slow_conv3d_shape_check self (some gradOutput) (some weight)
              (some [sz gradOutput 1]) kD kH kW sD sH sW pD pH pW true with
          | err e2 =>
              simp [slow_conv3d_backward_out_cpu,
                slow_conv3d_backward_parameters_out_cpu_template, hc2] at hb
              obtain ⟨h1, -⟩ := hb
              subst h1
              simp at hev
              rcases hev with rfl | rfl | rfl | rfl <;> tauto
          | ok =>
              simp [slow_conv3d_backward_out_cpu,
                slow_conv3d_backward_parameters_out_cpu_template, hc2] at hb


/-- Counterexample to C2 as stated: a backward call that only requests
grad_weight and passes an invalid kernel size (0,3,3) resizes and
zero-fills the caller-passed grad_weight buffer before the
InvalidArgument error is raised by the parameter-pass validation, so a
caller-passed tensor is changed on the error path. -/
theorem backward_resizes_before_validation_cex :
    slow_conv3d_backward_out_cpu false true false [1, 1, 1, 1, 1]
        [1, 1, 3, 3, 3] [1, 1, 3, 3, 3] 0 3 3 1 1 1 0 0 0 =
      ([Event.resize .gradWeightB, Event.zeroFill .gradWeightB],
        .err .kernelSize) := by
  decide

/-- Witness for the amended C2: a forward call with an oversized kernel
fails leaving every buffer exactly as passed, and the error-path events of
the counterexample backward call touch only grad_weight and grad_bias. -/
theorem error_paths_leave_buffers_witness :
    slow_conv3d_forward_out_cpu [7] [7] [7] [1, 1, 3, 3, 3] [1, 1, 5, 5, 5]
        none 5 5 5 1 1 1 0 0 0 =
      ⟨[7], [7], [7], [], some .kernelTooLarge⟩ ∧
      ∀ ev ∈ [Event.resize BufId.gradWeightB, Event.zeroFill BufId.gradWeightB],
        ev = Event.resize .gradWeightB ∨ ev = Event.zeroFill .gradWeightB ∨
          ev = Event.resize .gradBiasB ∨ ev = Event.zeroFill .gradBiasB := by
  constructor
  · exact (error_paths_leave_buffers [7] [7] [7] [1, 1, 3, 3, 3] [1, 1, 5, 5, 5]
      [1, 1, 1, 1, 1] none 5 5 5 1 1 1 0 0 0 false false false
      .kernelTooLarge [] (by decide)).1 (by decide)
  · exact (error_paths_leave_buffers [] [] [] [1, 1, 3, 3, 3] [1, 1, 3, 3, 3]
      [1, 1, 1, 1, 1] none 0 3 3 1 1 1 0 0 0 false true false
      .kernelSize [Event.resize .gradWeightB, Event.zeroFill .gradWeightB]
      (by decide)).2 (by decide)

/-- Claim C5: per batch item, when a bias is present the output slice equals
the per-channel bias broadcast plus the matrix product of the 2-D weight
with the unfolded column buffer (fill then accumulate-multiply with beta =
alpha = 1); when the bias is absent the output slice is exactly the matrix
product; in both cases the prior contents of the output slice are
overwritten (the result does not depend on them). -/
theorem update_output_frame_semantics
    (output output2 : Nat → Nat → Int) (weight : Nat → Nat → Int) (b : Nat → Int)
    (input : Nat → Nat → Nat → Nat → Int)
    (C iD iH iW oD oH oW kD kH kW sD sH sW pD pH pW : Nat) :
    ((slow_conv3d_update_output_frame output weight (some b) input
          C iD iH iW oD oH oW kD kH kW sD sH sW pD pH pW).1 =
        fun i j => b i +
          mmEntry weight
            (Unfold3dCopyCPU input iD iH iW oD oH oW kD kH kW sD sH sW pD pH pW)
            (C * kD * kH * kW) i j) ∧
      ((slow_conv3d_update_output_frame output weight none input
          C iD iH iW oD oH oW kD kH kW sD sH sW pD pH pW).1 =
        mmEntry weight
          (Unfold3dCopyCPU input iD iH iW oD oH oW kD kH kW sD sH sW pD pH pW)
          (C * kD * kH * kW)) ∧
      slow_conv3d_update_output_frame output weight (some b) input
          C iD iH iW oD oH oW kD kH kW sD sH sW pD pH pW =
        slow_conv3d_update_output_frame output2 weight (some b) input
          C iD iH iW oD oH oW kD kH kW sD sH sW pD pH pW ∧
      slow_conv3d_update_output_frame output weight none input
          C iD iH iW oD oH oW kD kH kW sD sH sW pD pH pW =
        slow_conv3d_update_output_frame output2 weight none input
          C iD iH iW oD oH oW kD kH kW sD sH sW pD pH pW := by
  refine ⟨?_, rfl, rfl, rfl⟩
  funext i j
  simp [slow_conv3d_update_output_frame, addmmEntry]

/-- Claim C7: the batched forward and grad-input passes equal the
concatenation of the runs on each batch-of-1 slice: the output, the column
buffer, and the input gradient of the batched run agree item by item with
the slicewise runs. -/
theorem batch_independence
    (outputPrior : Nat → Nat → Nat → Int)
    (input gradOutput : Nat → Nat → Nat → Nat → Nat → Int)
    (weight tweight : Nat → Nat → Int) (bias : Option (Nat → Int))
    (nOut C iD iH iW oD oH oW kD kH kW sD sH sW pD pH pW : Nat) :
    forward_output_batch outputPrior input weight bias
        C iD iH iW oD oH oW kD kH kW sD sH sW pD pH pW =
      forward_output_slicewise outputPrior input weight bias
        C iD iH iW oD oH oW kD kH kW sD sH sW pD pH pW ∧
      forward_finput_batch outputPrior input weight bias
          C iD iH iW oD oH oW kD kH kW sD sH sW pD pH pW =
        forward_finput_slicewise outputPrior input weight bias
          C iD iH iW oD oH oW kD kH kW sD sH sW pD pH pW ∧
      grad_input_batch gradOutput tweight
          nOut iD iH iW oD oH oW kD kH kW sD sH sW pD pH pW =
        grad_input_slicewise gradOutput tweight
          nOut iD iH iW oD oH oW kD kH kW sD sH sW pD pH pW :=
  ⟨rfl, rfl, rfl⟩

set_option maxHeartbeats 3200000 in
/-- Claim C6: for input shape (1,1,4,4,4), weight shape (1,1,2,2,2), bias
(0), stride (1,1,1), padding (0,0,0), Forward succeeds with output shape
(1,1,3,3,3), and every output voxel (d,h,w) equals the dot product of the
2x2x2 input window at (d,h,w) with the kernel, for arbitrary input and
kernel contents. -/
theorem forward_concrete_2x2x2
    (x w5 : Nat → Nat → Nat → Nat → Nat → Int) (op : Nat → Nat → Nat → Int)
    (d h w : Nat) (hd : d < 3) (hh : h < 3) (hw : w < 3) :
    (slow_conv3d_forward_out_cpu [0] [0] [0] [1, 1, 4, 4, 4] [1, 1, 2, 2, 2]
        (some [1]) 2 2 2 1 1 1 0 0 0).err = none ∧
      (slow_conv3d_forward_out_cpu [0] [0] [0] [1, 1, 4, 4, 4] [1, 1, 2, 2, 2]
        (some [1]) 2 2 2 1 1 1 0 0 0).output = [1, 1, 3, 3, 3] ∧
      forward_output_batch op x (view_weight_2d_val w5 2 2 2)
          (some fun _ => (0 : Int)) 1 4 4 4 3 3 3 2 2 2 1 1 1 0 0 0
          0 0 ((d * 3 + h) * 3 + w) =
        ∑ a ∈ Finset.range 2, ∑ b ∈ Finset.range 2, ∑ e ∈ Finset.range 2,
          x 0 0 (d + a) (h + b) (w + e) * w5 0 0 a b e := by
  refine ⟨by decide, by decide, ?_⟩
  interval_cases d <;> interval_cases h <;> interval_cases w <;>
    (simp only [forward_output_batch, slow_conv3d_update_output_frame,
      addmmEntry, mmEntry]
     norm_num [Finset.sum_range_succ]
     simp only [view_weight_2d_val, Unfold3dCopyCPU]
     norm_num [Int.toNat]
     ring)

/-- Witness for C6: with all-ones input and kernel, the first output voxel
is 8, the size of the 2x2x2 window. -/
theorem forward_concrete_2x2x2_witness :
    forward_output_batch (fun _ _ _ => 0) (fun _ _ _ _ _ => 1)
        (view_weight_2d_val (fun _ _ _ _ _ => 1) 2 2 2) (some fun _ => (0 : Int))
        1 4 4 4 3 3 3 2 2 2 1 1 1 0 0 0 0 0 0 = 8 := by
  have h := (forward_concrete_2x2x2 (fun _ _ _ _ _ => 1) (fun _ _ _ _ _ => 1)
      (fun _ _ _ => 0) 0 0 0 (by decide) (by decide) (by decide)).2.2
  norm_num [Finset.sum_range_succ] at h
  exact h

end Conv3d
